import Mathlib

/-!
Verification of the appointment-to-task classification and deduplication
pipeline of the auto-eligibility-checker service.

Shallow embedding of the Python sources:
  services/auto-eligibility-checker/{main.py, eligibility_processor.py,
  tpa_mapper.py, visit_type_mapper.py, redis_tracker.py, history_creator.py}

Modelling conventions:
- Appointment dictionaries become association lists of (key, Value) where
  `Value` covers the Python value shapes the code inspects (None, str, bool,
  int).  `dict.get` of an absent key yields Python None, modelled as
  `Value.null`.
- Python truthiness, `str(...)`, and short-circuit `or` are modelled by
  `truthy`, `pyStr`, `pyOr`.  Python `str.strip()` is modelled by
  `strTrim` (whitespace from both ends) and `str.upper()/lower()` by the
  ASCII `strUpper`/`strLower` (all inputs in the claims are ASCII).
- The Redis tracking store becomes a function from key to an optional
  `TrackRecord`; the JSON encode/decode round trip of the record is
  identity in effect and is elided, as are the timestamp fields and the
  TTLs (retention is enforced by the store, never consulted by the code).
- HTTP collaborators (Mantys submission, history service) and the
  clinic-scoped insurance-name mapping loaded from Redis are parameters of
  the pipeline (`Env`); the pipeline result records the payload of any
  submission/history call that was actually made.
-/

/-- Python-like dynamic value as inspected by the service code. -/
inductive Value where
  | null
  | str (s : String)
  | bool (b : Bool)
  | int (n : Int)
deriving Repr, DecidableEq

/-- Python truthiness. -/
def truthy : Value → Bool
  | Value.null => false
  | Value.str s => s != ""
  | Value.bool b => b
  | Value.int n => n != 0

/-- Python str() conversion for the value shapes above. -/
def pyStr : Value → String
  | Value.null => "None"
  | Value.str s => s
  | Value.bool b => if b then "True" else "False"
  | Value.int n => toString n

/-- Python short-circuit `a or b`: the first operand if truthy, else the second. -/
def pyOr (a b : Value) : Value :=
  if truthy a then a else b

/-- `needle` occurs at the head of `hay` (character lists). -/
def charsMatchAt : List Char → List Char → Bool
  | [], _ => true
  | _ :: _, [] => false
  | a :: as2, b :: bs => a == b && charsMatchAt as2 bs

/-- Python `needle in hay` substring test. -/
def strContains (hay needle : String) : Bool :=
  (List.range (hay.toList.length + 1)).any
    (fun i => charsMatchAt needle.toList (hay.toList.drop i))

/-- String prefix test (list-based). -/
def strStartsWith (s p : String) : Bool :=
  charsMatchAt p.toList s.toList

/-- ASCII uppercase of one character. -/
def charUp (c : Char) : Char :=
  if decide (Char.ofNat 97 ≤ c) && decide (c ≤ Char.ofNat 122) then
    Char.ofNat (c.toNat - 32)
  else c

/-- ASCII lowercase of one character. -/
def charDown (c : Char) : Char :=
  if decide (Char.ofNat 65 ≤ c) && decide (c ≤ Char.ofNat 90) then
    Char.ofNat (c.toNat + 32)
  else c

/-- Python str.upper() (ASCII; all claim inputs are ASCII). -/
def strUpper (s : String) : String :=
  String.mk (List.map charUp s.toList)

/-- Python str.lower() (ASCII). -/
def strLower (s : String) : String :=
  String.mk (List.map charDown s.toList)

def wsDrop : List Char → List Char
  | [] => []
  | c :: cs => if c.isWhitespace then wsDrop cs else c :: cs

/-- Python str.strip(): remove leading and trailing whitespace. -/
def strTrim (s : String) : String :=
  String.mk (List.reverse (wsDrop (List.reverse (wsDrop s.toList))))

/-- Drop the first `n` characters (list-based). -/
def strDrop (s : String) (n : Nat) : String :=
  String.mk (s.toList.drop n)

/-- ASCII decimal digit test. -/
def isDigitChar (c : Char) : Bool :=
  decide (Char.ofNat 48 ≤ c) && decide (c ≤ Char.ofNat 57)

/-- Decimal value of a digit list (most significant first). -/
def digitsVal : List Char → Nat → Nat
  | [], acc => acc
  | c :: cs, acc => digitsVal cs (acc * 10 + (c.toNat - 48))

/-- After a leading digit: Python int() literals allow single underscores
strictly between digits. -/
def groupRest : List Char → Bool
  | [] => true
  | c :: cs =>
    if c == Char.ofNat 95 then
      match cs with
      | [] => false
      | c2 :: cs2 => isDigitChar c2 && groupRest cs2
    else isDigitChar c && groupRest cs

/-- Python `int(s)` for a base-10 string literal: surrounding whitespace, an
optional sign, then digits with optional single underscores between them.
`none` models the ValueError raised on anything else.  (Non-ASCII digit
characters, which CPython also accepts, are not modelled; no claim input uses
them.) -/
def pyIntOfStr (s : String) : Option Int :=
  let core : List Char → Option Nat := fun ds =>
    match ds with
    | [] => none
    | c :: rest =>
      if isDigitChar c && groupRest rest then
        some (digitsVal ((c :: rest).filter (fun ch => ch != Char.ofNat 95)) 0)
      else none
  match (strTrim s).toList with
  | Char.mk 43 _ :: rest => Option.map (fun n => (n : Int)) (core rest)
  | Char.mk 45 _ :: rest => Option.map (fun n => -(n : Int)) (core rest)
  | cs => Option.map (fun n => (n : Int)) (core cs)

/-- Python `int(v)` on the modelled value shapes: identity on ints, 1/0 on
booleans, string parsing as above; `none` models the raised
ValueError/TypeError. -/
def pyInt : Value → Option Int
  | Value.int n => some n
  | Value.bool b => some (if b then 1 else 0)
  | Value.str s => pyIntOfStr s
  | Value.null => none

/-- An appointment record: a loosely structured dictionary. -/
def Appt : Type := List (String × Value)

/-- `appointment.get(k)`: first binding of the key, Python None when absent. -/
def aget (a : Appt) (k : String) : Value :=
  match List.find? (fun kv => kv.1 == k) a with
  | some kv => kv.2
  | none => Value.null

/-- Character class [0-9A-Z] used by the TPA code regexes. -/
def isUpperAlnumChar (c : Char) : Bool :=
  (decide (Char.ofNat 48 ≤ c) && decide (c ≤ Char.ofNat 57)) ||
  (decide (Char.ofNat 65 ≤ c) && decide (c ≤ Char.ofNat 90))

/-- Regex `^TPA[0-9A-Z]+$` (tpa_mapper.TPA_CODE_PATTERN). -/
def isTpaCode (s : String) : Bool :=
  strStartsWith s "TPA" && decide (s.toList.length > 3) && (strDrop s 3).toList.all isUpperAlnumChar

/-- Regex `^INS[0-9A-Z]+$` (tpa_mapper.INS_CODE_PATTERN). -/
def isInsCode (s : String) : Bool :=
  strStartsWith s "INS" && decide (s.toList.length > 3) && (strDrop s 3).toList.all isUpperAlnumChar

/-- Regex `^(D|DHPO|RIYATI)[0-9A-Z]*$` (tpa_mapper.OTHER_CODE_PATTERN). -/
def isOtherCode (s : String) : Bool :=
  (strStartsWith s "D" && (strDrop s 1).toList.all isUpperAlnumChar) ||
  (strStartsWith s "DHPO" && (strDrop s 4).toList.all isUpperAlnumChar) ||
  (strStartsWith s "RIYATI" && (strDrop s 6).toList.all isUpperAlnumChar)

/-- tpa_mapper._normalize_insurance_name: strip + uppercase. -/
def normalizeInsName (s : String) : String :=
  strUpper (strTrim s)

/-- tpa_mapper.INSURANCE_NAME_TO_TPA: the hardcoded fallback table, empty in the source. -/
def hardcodedNameToTpa : String → Option String :=
  fun _ => none

/-- The `receiver_code`/`payer_code` (and name) field access pattern of
tpa_mapper.extract_tpa_code_from_appointment: `get(k1) or get(k2)`, then, when
truthy, rebound to `str(value).strip()`.  `some s` means the original chain was
truthy and `s` is the stripped string. -/
def codeField (a : Appt) (k1 k2 : String) : Option String :=
  let v := pyOr (aget a k1) (aget a k2)
  if truthy v then some (strTrim (pyStr v)) else none

def receiverCodeOf (a : Appt) : Option String :=
  codeField a "receiver_code" "receiverCode"

def payerCodeOf (a : Appt) : Option String :=
  codeField a "payer_code" "payerCode"

def receiverNameOf (a : Appt) : Option String :=
  codeField a "receiver_name" "receiverName"

def payerNameOf (a : Appt) : Option String :=
  codeField a "payer_name" "payerName"

/-- Priority-5/6 name lookup: clinic Redis mapping keyed by the normalized
name (`if tpa_code:` truthiness check on the mapped value), falling back to the
hardcoded table keyed by the stripped (unnormalized) name. -/
def nameLookup (nm : String → Option String) (s : String) : Option String :=
  let hard : Option String :=
    match hardcodedNameToTpa s with
    | some c => if c != "" then some c else none
    | none => none
  match nm (normalizeInsName s) with
  | some c => if c != "" then some c else hard
  | none => hard

/-- tpa_mapper.extract_tpa_code_from_appointment.  `nm` is the clinic-scoped
insurance-name → code mapping loaded (and cached) from Redis; the clinic id is
assumed present (config default is non-empty). -/
def extract_tpa_code_from_appointment (a : Appt) (nm : String → Option String) :
    Option String :=
  let rc := receiverCodeOf a
  let pc := payerCodeOf a
  -- Priority 1: receiver_code against TPA then INS pattern
  let p1 : Option String :=
    match rc with
    | some s => if isTpaCode s || isInsCode s then some s else none
    | none => none
  match p1 with
  | some s => some s
  | none =>
    -- Priority 2: payer_code against TPA then INS pattern
    let p2 : Option String :=
      match pc with
      | some s => if isTpaCode s || isInsCode s then some s else none
      | none => none
    match p2 with
    | some s => some s
    | none =>
      -- Priority 3: receiver_code against the other patterns (truthiness of
      -- the stripped string re-checked by the source)
      let p3 : Option String :=
        match rc with
        | some s => if s != "" && isOtherCode s then some s else none
        | none => none
      match p3 with
      | some s => some s
      | none =>
        -- Priority 4: payer_code against the other patterns
        let p4 : Option String :=
          match pc with
          | some s => if s != "" && isOtherCode s then some s else none
          | none => none
        match p4 with
        | some s => some s
        | none =>
          -- Priority 5: receiver_name via the name mappings
          let p5 : Option String :=
            match receiverNameOf a with
            | some s => nameLookup nm s
            | none => none
          match p5 with
          | some s => some s
          | none =>
            -- Priority 6: payer_name via the name mappings
            match payerNameOf a with
            | some s => nameLookup nm s
            | none => none

/-- tpa_mapper.is_valid_tpa_code (argument `none` models Python None). -/
def is_valid_tpa_code (c : Option String) : Bool :=
  match c with
  | none => false
  | some s0 =>
    if s0 == "" then false
    else
      let s := strTrim s0
      s == "BOTH" || isTpaCode s || isInsCode s || isOtherCode s

/-- visit_type_mapper.VALID_VISIT_TYPES. -/
def validVisitTypes : List String :=
  ["OUTPATIENT", "INPATIENT", "DENTAL", "OPTICAL", "MATERNITY", "PSYCHIATRY",
   "WELLNESS", "CHRONIC_OUT", "EMERGENCY", "LIFE", "TRAVEL_INSURANCE"]

/-- visit_type_mapper.is_valid_visit_type. -/
def is_valid_visit_type (v : String) : Bool :=
  validVisitTypes.contains v

/-- visit_type_mapper.SPECIALISATION_KEYWORDS, in Python dict insertion order
(iteration order of `dict.items()`). -/
def specialisationKeywords : List (String × String) :=
  [("DENTAL", "DENTAL"), ("DENTIST", "DENTAL"),
   ("OPTICAL", "OPTICAL"), ("OPTOMETRIST", "OPTICAL"),
   ("OPHTHALMOLOGIST", "OPTICAL"), ("EYE", "OPTICAL"),
   ("MATERNITY", "MATERNITY"), ("OBSTETRIC", "MATERNITY"),
   ("GYNECOLOG", "MATERNITY"),
   ("PSYCHIATRY", "PSYCHIATRY"), ("PSYCHIATRIST", "PSYCHIATRY"),
   ("MENTAL", "PSYCHIATRY"),
   ("WELLNESS", "WELLNESS")]

/-- The specialisation-name field chain of visit_type_mapper.determine_visit_type. -/
def specNameOf (a : Appt) : Value :=
  pyOr (aget a "specialisation_name")
    (pyOr (aget a "specialisationName")
      (pyOr (aget a "specialization_name") (aget a "specializationName")))

/-- Priority 1 of determine_visit_type: first keyword of the table occurring in
the uppercased specialisation name, in table order. -/
def specKeywordHit (a : Appt) : Option String :=
  if truthy (specNameOf a) then
    Option.map (fun kv : String × String => kv.2)
      (List.find? (fun kv => strContains (strUpper (pyStr (specNameOf a))) kv.1)
        specialisationKeywords)
  else none

/-- The emergency-flag field chain of determine_visit_type. -/
def emergencyVal (a : Appt) : Value :=
  pyOr (aget a "isEmergencyAppointment")
    (pyOr (aget a "is_emergency_appointment") (aget a "emergency"))

/-- Priority 3 of determine_visit_type: the flag is truthy and, when it is a
string, its lowercase form is one of "true", "1", "yes". -/
def emergencyTruthy (a : Appt) : Bool :=
  let v := emergencyVal a
  if truthy v then
    match v with
    | Value.str s => ["true", "1", "yes"].contains (strLower s)
    | _ => true
  else false

/-- visit_type_mapper.determine_visit_type.  The visitTypeId inspection
(priority 2) is a logged no-op in the source and does not alter the result. -/
def determine_visit_type (a : Appt) : String :=
  match specKeywordHit a with
  | some vt => vt
  | none => if emergencyTruthy a then "EMERGENCY" else "OUTPATIENT"

/-- Truthy-and-nonblank test used on each identity source by
eligibility_processor.determine_id_type_and_value. -/
def idCheck (v : Value) : Bool :=
  truthy v && strTrim (pyStr v) != ""

/-- eligibility_processor.determine_id_type_and_value.  The pipeline always
calls it with `insurance_data = None`; an empty dict is falsy in Python, hence
the emptiness guard on the insurance branch. -/
def determine_id_type_and_value (a : Appt) (ins : Option Appt) :
    Option (String × String) :=
  let fromIns : Option (String × String) :=
    match ins with
    | none => none
    | some d =>
      if d.isEmpty then none
      else
        let t1 := pyOr (aget d "tpa_policy_id") (aget d "tpaPolicyId")
        if idCheck t1 then some ("CARDNUMBER", strTrim (pyStr t1))
        else
          let t2 := pyOr (aget d "insurance_policy_id") (aget d "insurancePolicyId")
          if idCheck t2 then some ("CARDNUMBER", strTrim (pyStr t2))
          else
            let t3 := pyOr (aget d "policy_number") (aget d "policyNumber")
            if idCheck t3 then some ("CARDNUMBER", strTrim (pyStr t3))
            else
              let t4 := pyOr (aget d "ins_holderid") (aget d "insHolderId")
              if idCheck t4 then some ("CARDNUMBER", strTrim (pyStr t4))
              else none
  match fromIns with
  | some r => some r
  | none =>
    let nid := pyOr (aget a "nationality_id") (aget a "nationalityId")
    if idCheck nid then some ("EMIRATESID", strTrim (pyStr nid))
    else
      let uv := pyOr (aget a "uid_value") (aget a "uidValue")
      if idCheck uv then some ("EMIRATESID", strTrim (pyStr uv))
      else
        let dha := pyOr (pyOr (aget a "dha_member_id") (aget a "dhaMemberId"))
          (pyOr (aget a "member_id") (aget a "memberId"))
        if idCheck dha then some ("DHAMEMBERID", strTrim (pyStr dha))
        else none

/-- Tracking Record stored under the appointment key (redis_tracker.py).
Timestamp fields and TTLs are not consulted by any of the code under proof and
are elided. -/
structure TrackRecord where
  taskId : String
  status : String
  error : Option String
deriving Repr, DecidableEq

/-- The idempotency store: key → optional Tracking Record. -/
def Store : Type := String → Option TrackRecord

def emptyStore : Store := fun _ => none

def storeSet (st : Store) (k : String) (v : TrackRecord) : Store :=
  fun q => if q == k then some v else st q

/-- Redis SETNX: create-if-absent, atomic; true iff this call created the key. -/
def setnx (st : Store) (k : String) (v : TrackRecord) : Store × Bool :=
  match st k with
  | none => (storeSet st k v, true)
  | some _ => (st, false)

/-- redis_tracker.RedisTracker._get_appointment_key. -/
def trackingKey (appointmentId : Value) : String :=
  "auto-check:appointment:" ++ pyStr appointmentId

/-- Record written by mark_appointment_processing. -/
def procRecord : TrackRecord :=
  { taskId := "", status := "processing", error := none }

/-- Record written by mark_appointment_completed (main.py passes status="completed"). -/
def completedRecord (taskId : String) : TrackRecord :=
  { taskId := taskId, status := "completed", error := none }

/-- Record written by mark_appointment_error (called without task_id by main.py). -/
def errorRecord (msg : String) : TrackRecord :=
  { taskId := "", status := "error", error := some msg }

/-- Outcome of the store read inside get_appointment_status: the read either
succeeds with an optional record or raises. -/
inductive ReadOutcome where
  | ok (v : Option TrackRecord)
  | err
deriving Repr, DecidableEq

/-- redis_tracker.RedisTracker.get_appointment_status: a raised store error is
caught and converted to None, indistinguishable from an absent record. -/
def get_appointment_status (ro : ReadOutcome) : Option TrackRecord :=
  match ro with
  | ReadOutcome.ok v => v
  | ReadOutcome.err => none

/-- The decision core of should_process_appointment on the (possibly absent)
record returned by get_appointment_status. -/
def should_process_of (v : Option TrackRecord) : Bool :=
  match v with
  | none => true
  | some rec => rec.status == "error"

/-- redis_tracker.RedisTracker.should_process_appointment. -/
def should_process_appointment (ro : ReadOutcome) : Bool :=
  should_process_of (get_appointment_status ro)

/-- redis_tracker.RedisTracker.mark_appointment_processing: a single atomic
SETNX; `raises = true` injects a store exception, which the except-branch of
the source converts to False. -/
def mark_appointment_processing (raises : Bool) (st : Store) (appointmentId : Value) :
    Store × Bool :=
  if raises then (st, false)
  else setnx st (trackingKey appointmentId) procRecord

/-- The appointment-id field chain, `get("appointment_id") or
get("appointmentId")`, shared by main.process_appointment and both payload
builders. -/
def apptIdOf (a : Appt) : Value :=
  pyOr (aget a "appointment_id") (aget a "appointmentId")

/-- The encounter-id field chain of the payload builders. -/
def encIdOf (a : Appt) : Value :=
  pyOr (aget a "encounter_id") (aget a "encounterId")

/-- Both payload builders run `int(appointment_id)` / `int(encounter_id)` on
the truthy id chains while building their payload, before their try block:
this is true exactly when one of those conversions raises ValueError (the
appointment conversion is evaluated first, but either way the uncaught
exception is the outcome). -/
def idConvRaises (a : Appt) : Bool :=
  (truthy (apptIdOf a) && (pyInt (apptIdOf a)).isNone) ||
  (truthy (encIdOf a) && (pyInt (encIdOf a)).isNone)

/-- The required fields of the Mantys eligibility-check payload
(eligibility_processor.create_mantys_eligibility_check).  The optional patient
metadata payload values are not referenced by any claim and are elided, but
the int() conversions performed while building them are modelled through
idConvRaises. -/
structure SubmitPayload where
  idValue : String
  idType : String
  tpaName : String
  visitType : String
deriving Repr, DecidableEq

/-- The claim-relevant fields of the history payload
(history_creator.create_eligibility_history_item). -/
structure HistoryPayload where
  patientId : String
  taskId : String
  insPayer : Option String
deriving Repr, DecidableEq

/-- External collaborators and injected store faults, fixed for one pipeline run:
the clinic insurance-name mapping, whether the store op inside
mark_appointment_processing raises, the task_id field of the Mantys response
(None = transport failure or missing field), and likewise the id field of the
history response. -/
structure Env where
  nameMap : String → Option String
  markProcessingRaises : Bool
  submitRes : Option String
  historyRes : Option String

/-- eligibility_processor.create_mantys_eligibility_check: builds the payload
— the int() conversions of the truthy appointment/encounter ids happen here,
before the try block, so their ValueError escapes to the caller (modelled as
`none`) — then posts it and returns the task id when the response carries a
truthy one.  On the normal path the second component is the payload that was
posted. -/
def create_mantys_eligibility_check (env : Env) (a : Appt)
    (tpa visit idt idv : String) : Option (Option String × SubmitPayload) :=
  if idConvRaises a = true then none
  else
    let payload : SubmitPayload :=
      { idValue := idv, idType := idt, tpaName := tpa, visitType := visit }
    some (match env.submitRes with
      | none => (none, payload)
      | some t => (if t != "" then some t else none, payload))

/-- Outcome of process_appointment_for_eligibility: an uncaught exception
propagating to the caller, or a normal return carrying the task id (None on
failure) together with the Mantys payload if the submission call was made. -/
inductive PipeOutcome where
  | raised
  | normal (taskId : Option String) (submitted : Option SubmitPayload)
deriving Repr, DecidableEq

/-- eligibility_processor.process_appointment_for_eligibility (the pipeline
calls it with insurance_data=None).  A ValueError raised while
create_mantys_eligibility_check builds its payload is not caught here and
propagates. -/
def process_appointment_for_eligibility (env : Env) (a : Appt) : PipeOutcome :=
  match extract_tpa_code_from_appointment a env.nameMap with
  | none => PipeOutcome.normal none none
  | some tpa =>
    if is_valid_tpa_code (some tpa) = false then PipeOutcome.normal none none
    else
      let visit := determine_visit_type a
      if is_valid_visit_type visit = false then PipeOutcome.normal none none
      else
        match determine_id_type_and_value a none with
        | none => PipeOutcome.normal none none
        | some idInfo =>
          match create_mantys_eligibility_check env a tpa visit idInfo.1 idInfo.2 with
          | none => PipeOutcome.raised
          | some r => PipeOutcome.normal r.1 (some r.2)

/-- history_creator: `str(patient_id) if patient_id else mpi`. -/
def patientIdStr (a : Appt) : Value :=
  if truthy (pyOr (aget a "patient_id") (aget a "patientId")) then
    Value.str (pyStr (pyOr (aget a "patient_id") (aget a "patientId")))
  else pyOr (aget a "mpi") (Value.str "")

/-- history_creator: insurancePayer payload field, added when tpa_code is truthy. -/
def insPayerField (tpaCode : Value) : Option String :=
  if truthy tpaCode then some (pyStr tpaCode) else none

/-- history_creator.create_eligibility_history_item: requires a truthy patient
identifier (patient_id, falling back to mpi); its payload construction also
runs the int() conversions of the truthy appointment/encounter ids outside the
try block, whose ValueError escapes to the caller (modelled as `none`); on the
normal path it posts the payload and returns the history id when the response
carries a truthy one.  Optional name/DOB/MPI payload values are elided. -/
def create_eligibility_history_item (env : Env) (a : Appt) (taskId : String)
    (tpaCode : Value) : Option (Option String × Option HistoryPayload) :=
  if truthy (patientIdStr a) = false then some (none, none)
  else if idConvRaises a = true then none
  else
    let payload : HistoryPayload :=
      { patientId := pyStr (patientIdStr a), taskId := taskId,
        insPayer := insPayerField tpaCode }
    some (match env.historyRes with
      | none => (none, some payload)
      | some h => ((if h != "" then some h else none), some payload))

/-- Error record written by main.py's pipeline-boundary except-branch,
`mark_appointment_error(id, f"Error: {str(e)}")`.  The interpreter-defined
ValueError text is abstracted behind this marker since no claim inspects it. -/
def uncaughtErrorMsg : String := "Error: ValueError"

/-- The per-run counters of EligibilityCheckerService (main.py), with the
source metric names in comments. -/
structure Metrics where
  fetched : Nat                  -- appointments_fetched
  processed : Nat                -- appointments_processed
  created : Nat                  -- eligibility_checks_created
  errors : Nat                   -- errors
  skippedNoInsurance : Nat       -- skipped_no_insurance
  skippedAlreadyProcessed : Nat  -- skipped_already_processed
  skippedNoTpa : Nat             -- skipped_no_tpa
  skippedNoId : Nat              -- skipped_no_id
deriving Repr, DecidableEq

def zeroMetrics : Metrics :=
  { fetched := 0, processed := 0, created := 0, errors := 0,
    skippedNoInsurance := 0, skippedAlreadyProcessed := 0,
    skippedNoTpa := 0, skippedNoId := 0 }

/-- main.EligibilityCheckerService.has_insurance_info. -/
def has_insurance_info (a : Appt) : Bool :=
  let hasCode := truthy (pyOr (aget a "receiver_code")
    (pyOr (aget a "payer_code") (pyOr (aget a "receiverCode") (aget a "payerCode"))))
  let hasName := truthy (pyOr (aget a "receiver_name")
    (pyOr (aget a "payer_name") (pyOr (aget a "receiverName") (aget a "payerName"))))
  hasCode || hasName

/-- main.EligibilityCheckerService.has_emirates_id. -/
def has_emirates_id (a : Appt) : Bool :=
  let nid := pyOr (aget a "nationality_id") (aget a "nationalityId")
  if truthy nid && strTrim (pyStr nid) != "" then true
  else
    let uv := pyOr (aget a "uid_value") (aget a "uidValue")
    truthy uv && strTrim (pyStr uv) != ""

/-- Result of one process_appointment run: the boolean return value, the
updated counters, the updated tracker store, and the payload of the Mantys
submission / history call when that call was made. -/
structure PRes where
  retval : Bool
  metrics : Metrics
  store : Store
  submitted : Option SubmitPayload
  history : Option HistoryPayload

/-- main.EligibilityCheckerService.process_appointment, over the tracker store
`st` and counters `m`.  The store read inside should_process_appointment is
taken to succeed (fault injection there belongs to the standalone tracker
model); the store fault inside mark_appointment_processing comes from `env`. -/
def process_appointment (env : Env) (m : Metrics) (st : Store) (a : Appt) : PRes :=
  let aid := apptIdOf a
  if truthy aid = false then
    { retval := false, metrics := { m with errors := m.errors + 1 },
      store := st, submitted := none, history := none }
  else
    let key := trackingKey aid
    if should_process_of (st key) = false then
      { retval := false,
        metrics := { m with skippedAlreadyProcessed := m.skippedAlreadyProcessed + 1 },
        store := st, submitted := none, history := none }
    else
      let hasIns := has_insurance_info a
      let hasEid := has_emirates_id a
      if hasIns = false ∧ hasEid = false then
        { retval := false,
          metrics := { m with skippedNoInsurance := m.skippedNoInsurance + 1 },
          store := st, submitted := none, history := none }
      else
        -- appointment.copy() plus the "BOTH" override when insurance is
        -- absent but an Emirates ID is present
        let a2 : Appt :=
          if hasIns = false then ("tpa_code_override", Value.str "BOTH") :: a else a
        let marked := mark_appointment_processing env.markProcessingRaises st aid
        let st1 := marked.1
        if marked.2 = false then
          { retval := false,
            metrics := { m with skippedAlreadyProcessed := m.skippedAlreadyProcessed + 1 },
            store := st1, submitted := none, history := none }
        else
          let ov := aget a2 "tpa_code_override"
          let tpa : Value :=
            if truthy ov then ov
            else
              match extract_tpa_code_from_appointment a2 env.nameMap with
              | some s => Value.str s
              | none => Value.null
          if truthy tpa = false then
            { retval := false,
              metrics := { m with skippedNoTpa := m.skippedNoTpa + 1 },
              store := storeSet st1 key (errorRecord "No valid TPA code found"),
              submitted := none, history := none }
          else
            match process_appointment_for_eligibility env a2 with
            | PipeOutcome.raised =>
              -- the ValueError from the Mantys payload int() conversions
              -- reaches main's except-branch: error record, errors counter
              { retval := false,
                metrics := { m with errors := m.errors + 1 },
                store := storeSet st1 key (errorRecord uncaughtErrorMsg),
                submitted := none, history := none }
            | PipeOutcome.normal none sub =>
              { retval := false,
                metrics := { m with errors := m.errors + 1 },
                store := storeSet st1 key (errorRecord "Failed to create Mantys task"),
                submitted := sub, history := none }
            | PipeOutcome.normal (some taskId) sub =>
              match create_eligibility_history_item env a2 taskId tpa with
              | none =>
                -- a ValueError from the history payload int() conversions
                -- likewise reaches main's except-branch (unreachable in fact:
                -- the same conversions already succeeded in the Mantys step)
                { retval := false,
                  metrics := { m with errors := m.errors + 1 },
                  store := storeSet st1 key (errorRecord uncaughtErrorMsg),
                  submitted := sub, history := none }
              | some hist =>
                { retval := true,
                  metrics :=
                    { m with processed := m.processed + 1, created := m.created + 1 },
                  store := storeSet st1 key (completedRecord taskId),
                  submitted := sub, history := hist.2 }

/-! Concrete inputs used by the per-claim counterexamples and witnesses. -/

/-- Appointment with no payer fields but an Emirates ID (the "BOTH" override path). -/
def c1Appt : Appt :=
  [("appointment_id", Value.int 101), ("nationality_id", Value.str "784-1234")]

/-- Environment in which every external collaborator would succeed. -/
def c1Env : Env :=
  { nameMap := fun _ => none, markProcessingRaises := false,
    submitRes := some "TASK-1", historyRes := some "HIST-1" }

/-- A store already holding a completed record for appointment 103. -/
def c2Store : Store :=
  fun k => if k == trackingKey (Value.int 103) then some (completedRecord "T0") else none

/-- Appointment whose receiver code matches the INS pattern while the payer
code matches the TPA pattern. -/
def c3Appt : Appt :=
  [("receiver_code", Value.str "INS001"), ("payer_code", Value.str "TPA001")]

/-- Appointment with a valid payer code but no identity field of any kind. -/
def c5Appt : Appt :=
  [("appointment_id", Value.int 105), ("receiver_code", Value.str "TPA001")]

def c5Env : Env :=
  { nameMap := fun _ => none, markProcessingRaises := false,
    submitRes := some "TASK-5", historyRes := some "HIST-5" }

/-- Appointment with an id but no payer/receiver/name fields and no identity fields. -/
def c6Appt : Appt := [("appointment_id", Value.int 102)]

def c6Env : Env :=
  { nameMap := fun _ => none, markProcessingRaises := false,
    submitRes := some "TASK-6", historyRes := some "HIST-6" }

/-- Fully classifiable appointment used by the C7 witness. -/
def c7Appt : Appt :=
  [("appointment_id", Value.int 106), ("receiver_code", Value.str "TPA007"),
   ("nationality_id", Value.str "784-1234")]

/-- Environment where submission succeeds but history creation fails. -/
def c7Env : Env :=
  { nameMap := fun _ => none, markProcessingRaises := false,
    submitRes := some "TASK-7", historyRes := none }

/-- Insured appointment used by the C10 witness. -/
def c10Appt : Appt :=
  [("appointment_id", Value.int 7), ("receiver_code", Value.str "TPA001")]

/-- Environment whose store op inside mark_appointment_processing raises. -/
def c10Env : Env :=
  { nameMap := fun _ => none, markProcessingRaises := true,
    submitRes := some "TASK-10", historyRes := some "HIST-10" }

/-! Helper lemmas shared by several claim theorems. -/

/-- Every entry of the specialisation keyword table maps to a valid visit type. -/
lemma specTableValid :
    ∀ kv ∈ specialisationKeywords, is_valid_visit_type kv.2 = true := by
  decide

/-- determine_visit_type always lands in the closed visit-type enumeration. -/
lemma visitTypeAlwaysValid (a : Appt) :
    is_valid_visit_type (determine_visit_type a) = true := by
  unfold determine_visit_type
  cases h : specKeywordHit a with
  | none =>
    by_cases he : emergencyTruthy a = true
    · rw [if_pos he]; decide
    · rw [if_neg he]; decide
  | some vt =>
    unfold specKeywordHit at h
    by_cases ht : truthy (specNameOf a) = true
    · rw [if_pos ht] at h
      obtain ⟨kv, hfind, hmap⟩ := Option.map_eq_some'.mp h
      have hmem : kv ∈ specialisationKeywords := List.mem_of_find?_eq_some hfind
      rw [← hmap]
      exact specTableValid kv hmem
    · rw [if_neg ht] at h
      exact absurd h (by simp)

/-- A TPA code accepted by is_valid_tpa_code is non-blank. -/
lemma validCodeNeBlank (c : String) (h : is_valid_tpa_code (some c) = true) :
    (c != "") = true := by
  by_cases hc : c = ""
  · rw [hc] at h
    exact absurd h (by decide)
  · simp [hc]

/-! Claim theorems. -/

/-- Claim C8 (confirmed): determine_visit_type is total and always returns a
member of the closed visit-type enumeration; for any appointment with no
specialisation keyword match and a falsy emergency-flag chain (in particular
one lacking those fields) it returns OUTPATIENT.  The appointment-type-id field
has no mapping in the source and never alters the result, so no hypothesis
about it is needed. -/
theorem c8_visit_type_total (a : Appt) :
    is_valid_visit_type (determine_visit_type a) = true ∧
    (specKeywordHit a = none → truthy (emergencyVal a) = false →
      determine_visit_type a = "OUTPATIENT") := by
  refine ⟨visitTypeAlwaysValid a, fun h1 h2 => ?_⟩
  unfold determine_visit_type
  rw [h1]
  simp [emergencyTruthy, h2]

/-- Witness for C8 at an appointment with neither specialisation nor
emergency data. -/
theorem c8_witness :
    specKeywordHit [("appointment_id", Value.int 1)] = none ∧
    truthy (emergencyVal [("appointment_id", Value.int 1)]) = false ∧
    determine_visit_type [("appointment_id", Value.int 1)] = "OUTPATIENT" :=
  ⟨by decide, by decide,
    (c8_visit_type_total [("appointment_id", Value.int 1)]).2 (by decide) (by decide)⟩

/-- Counterexample to claim C9 as stated: the string "maybe" is truthy in
Python, yet determine_visit_type returns OUTPATIENT, not EMERGENCY, because
the source only accepts the strings "true"/"1"/"yes" (case-insensitive). -/
theorem c9_counterexample :
    truthy (Value.str "maybe") = true ∧
    emergencyVal [("emergency", Value.str "maybe")] = Value.str "maybe" ∧
    determine_visit_type [("emergency", Value.str "maybe")] = "OUTPATIENT" ∧
    determine_visit_type [("emergency", Value.str "maybe")] ≠ "EMERGENCY" := by
  decide

/-- Claim C9 (amended): with no specialisation keyword match, the emergency
flag forces EMERGENCY when it is the boolean true, or a string whose lowercase
form is "true", "1" or "yes"; other truthy strings do not force EMERGENCY. -/
theorem c9_emergency_flag (a : Appt)
    (h1 : specKeywordHit a = none)
    (h2 : emergencyVal a = Value.bool true ∨
      ∃ s, emergencyVal a = Value.str s ∧
        ["true", "1", "yes"].contains (strLower s) = true) :
    determine_visit_type a = "EMERGENCY" := by
  unfold determine_visit_type
  rw [h1]
  have he : emergencyTruthy a = true := by
    rcases h2 with h | ⟨s, hs, hset⟩
    · simp [emergencyTruthy, h, truthy]
    · have hne : s ≠ "" := by
        intro e
        rw [e] at hset
        exact absurd hset (by decide)
      simp [emergencyTruthy, hs, truthy, hne]
      simpa using hset
  rw [he]
  simp

/-- Witness for the amended C9 at the flag string "True". -/
theorem c9_witness :
    specKeywordHit [("emergency", Value.str "True")] = none ∧
    emergencyVal [("emergency", Value.str "True")] = Value.str "True" ∧
    determine_visit_type [("emergency", Value.str "True")] = "EMERGENCY" :=
  ⟨by decide, by decide,
    c9_emergency_flag [("emergency", Value.str "True")] (by decide)
      (Or.inr ⟨"True", by decide, by decide⟩)⟩

/-- Counterexample to claim C3 as stated: the source checks receiver_code
against BOTH the TPA and INS patterns at its first priority, so a receiver
code matching the secondary (INS) pattern wins over a payer code matching the
primary (TPA) pattern. -/
theorem c3_counterexample :
    isInsCode "INS001" = true ∧
    isTpaCode "TPA001" = true ∧
    extract_tpa_code_from_appointment c3Appt (fun _ => none) = some "INS001" ∧
    extract_tpa_code_from_appointment c3Appt (fun _ => none) ≠ some "TPA001" := by
  decide

/-- Claim C3 (amended): the resolver checks the receiver-side code against
both the primary (TPA) and secondary (INS) patterns before the payer-side
code.  A receiver code matching either pattern is always returned, and the
payer-side code matching the primary pattern is returned exactly when the
receiver code matches neither pattern. -/
theorem c3_priority_order (a : Appt) (nm : String → Option String) :
    (∀ s, receiverCodeOf a = some s → (isTpaCode s || isInsCode s) = true →
      extract_tpa_code_from_appointment a nm = some s) ∧
    ((∀ s, receiverCodeOf a = some s → isTpaCode s = false ∧ isInsCode s = false) →
      ∀ p, payerCodeOf a = some p → isTpaCode p = true →
        extract_tpa_code_from_appointment a nm = some p) := by
  constructor
  · intro s hr hp
    simp [extract_tpa_code_from_appointment, hr, hp]
  · intro hnone p hp hq
    cases hrc : receiverCodeOf a with
    | none => simp [extract_tpa_code_from_appointment, hrc, hp, hq]
    | some s =>
      obtain ⟨h1, h2⟩ := hnone s hrc
      simp [extract_tpa_code_from_appointment, hrc, hp, hq, h1, h2]

/-- Witness for the amended C3: a lone INS receiver code is returned, and a
lone TPA payer code is returned when the receiver side is absent. -/
theorem c3_witness :
    extract_tpa_code_from_appointment
      [("receiver_code", Value.str "INS001")] (fun _ => none) = some "INS001" ∧
    extract_tpa_code_from_appointment
      [("payer_code", Value.str "TPA001")] (fun _ => none) = some "TPA001" :=
  ⟨(c3_priority_order [("receiver_code", Value.str "INS001")] (fun _ => none)).1
      "INS001" (by decide) (by decide),
   (c3_priority_order [("payer_code", Value.str "TPA001")] (fun _ => none)).2
      (fun s h => by
        have hn : receiverCodeOf [("payer_code", Value.str "TPA001")] = none := by decide
        rw [hn] at h
        exact Option.noConfusion h)
      "TPA001" (by decide) (by decide)⟩

/-- Claim C4 (confirmed): should_process_appointment returns true when the
store read fails (fail-open), when no record exists, and when the record has
status error; it returns false for status completed or processing. -/
theorem c4_should_process_cases :
    should_process_appointment ReadOutcome.err = true ∧
    should_process_appointment (ReadOutcome.ok none) = true ∧
    (∀ r : TrackRecord, r.status = "error" →
      should_process_appointment (ReadOutcome.ok (some r)) = true) ∧
    (∀ r : TrackRecord, r.status = "completed" →
      should_process_appointment (ReadOutcome.ok (some r)) = false) ∧
    (∀ r : TrackRecord, r.status = "processing" →
      should_process_appointment (ReadOutcome.ok (some r)) = false) := by
  refine ⟨rfl, rfl, ?_, ?_, ?_⟩ <;>
    intro r h <;>
    simp [should_process_appointment, get_appointment_status, should_process_of, h]

/-- Witness for C4 at concrete error, completed and processing records. -/
theorem c4_witness :
    should_process_appointment
      (ReadOutcome.ok (some { taskId := "", status := "error", error := some "boom" })) = true ∧
    should_process_appointment
      (ReadOutcome.ok (some { taskId := "T", status := "completed", error := none })) = false ∧
    should_process_appointment
      (ReadOutcome.ok (some { taskId := "", status := "processing", error := none })) = false :=
  ⟨c4_should_process_cases.2.2.1 _ rfl,
   c4_should_process_cases.2.2.2.1 _ rfl,
   c4_should_process_cases.2.2.2.2 _ rfl⟩

/-- Counterexample to claim C2 as stated: when a Tracking Record already
exists for the id (here a completed record for appointment 103), two
mark_processing calls against the same store both return false, so it is not
the case that exactly one of them returns true. -/
theorem c2_counterexample :
    c2Store (trackingKey (Value.int 103)) = some (completedRecord "T0") ∧
    (mark_appointment_processing false c2Store (Value.int 103)).2 = false ∧
    (mark_appointment_processing false
      (mark_appointment_processing false c2Store (Value.int 103)).1
      (Value.int 103)).2 = false := by
  decide

/-- Claim C2 (amended): mark_processing is a single atomic SETNX
conditional-write (never a read-then-write pair).  For two calls for the same
id against the same store — with atomic calls every concurrent interleaving is
one of the two sequential orders — exactly one returns true when no record
exists for the id, both return false when a record already exists, and in
every case at most one returns true. -/
theorem c2_atomic_mark_processing (st : Store) (aid : Value) :
    (st (trackingKey aid) = none →
      (mark_appointment_processing false st aid).2 = true ∧
      (mark_appointment_processing false
        (mark_appointment_processing false st aid).1 aid).2 = false) ∧
    (∀ r, st (trackingKey aid) = some r →
      (mark_appointment_processing false st aid).2 = false ∧
      (mark_appointment_processing false
        (mark_appointment_processing false st aid).1 aid).2 = false) ∧
    (¬((mark_appointment_processing false st aid).2 = true ∧
       (mark_appointment_processing false
         (mark_appointment_processing false st aid).1 aid).2 = true)) ∧
    mark_appointment_processing false st aid = setnx st (trackingKey aid) procRecord := by
  refine ⟨?_, ?_, ?_, rfl⟩
  · intro h
    constructor
    · simp [mark_appointment_processing, setnx, h]
    · simp [mark_appointment_processing, setnx, h, storeSet]
  · intro r h
    constructor
    · simp [mark_appointment_processing, setnx, h]
    · simp [mark_appointment_processing, setnx, h]
  · rintro ⟨h1, h2⟩
    cases hk : st (trackingKey aid) with
    | none => simp [mark_appointment_processing, setnx, hk, storeSet] at h2
    | some r => simp [mark_appointment_processing, setnx, hk] at h1

/-- Witness for the amended C2: on an empty store the first call returns true
and the second false (spec scenario C). -/
theorem c2_witness :
    emptyStore (trackingKey (Value.int 103)) = none ∧
    (mark_appointment_processing false emptyStore (Value.int 103)).2 = true ∧
    (mark_appointment_processing false
      (mark_appointment_processing false emptyStore (Value.int 103)).1
      (Value.int 103)).2 = false :=
  ⟨rfl,
   ((c2_atomic_mark_processing emptyStore (Value.int 103)).1 rfl).1,
   ((c2_atomic_mark_processing emptyStore (Value.int 103)).1 rfl).2⟩

/-- Truthiness of a string value. -/
lemma truthyStr (s : String) : truthy (Value.str s) = (s != "") := rfl

/-- Claim C1 (code bug): for an appointment with no payer/receiver code or
name fields but a non-empty national-id field, main.py sets the
tpa_code_override sentinel "BOTH" (which is_valid_tpa_code accepts), yet
process_appointment_for_eligibility re-extracts the TPA code from the payer
fields without consulting the override, finds none, and returns None before
any submission — so the pipeline records an error and never submits with
payer code "BOTH", contradicting the claim (and the source's own comments and
log lines, which say the appointment "will use TPA BOTH"). -/
theorem c1_both_override_never_submitted :
    has_insurance_info c1Appt = false ∧
    has_emirates_id c1Appt = true ∧
    is_valid_tpa_code (some "BOTH") = true ∧
    (process_appointment c1Env zeroMetrics emptyStore c1Appt).retval = false ∧
    (process_appointment c1Env zeroMetrics emptyStore c1Appt).submitted = none ∧
    (process_appointment c1Env zeroMetrics emptyStore c1Appt).metrics.errors = 1 ∧
    (process_appointment c1Env zeroMetrics emptyStore c1Appt).store
      (trackingKey (Value.int 101)) =
      some (errorRecord "Failed to create Mantys task") := by
  decide

/-- Claim C6 (confirmed): an appointment with an id, no payer/receiver code or
name fields (has_insurance_info false) and no national-id/uid fields
(has_emirates_id false), whose tracking state does not block processing, is
counted as skipped-no-insurance, the tracker store is left unchanged (no
Tracking Record is created), nothing is submitted, and re-running the pipeline
on the unchanged store yields the identical outcome with the counter advancing
by one again. -/
theorem c6_no_insurance_frame (env : Env) (m : Metrics) (st : Store) (a : Appt)
    (h1 : truthy (apptIdOf a) = true)
    (h2 : should_process_of (st (trackingKey (apptIdOf a))) = true)
    (h3 : has_insurance_info a = false)
    (h4 : has_emirates_id a = false) :
    (process_appointment env m st a).retval = false ∧
    (process_appointment env m st a).metrics =
      { m with skippedNoInsurance := m.skippedNoInsurance + 1 } ∧
    (process_appointment env m st a).store = st ∧
    (process_appointment env m st a).submitted = none ∧
    (process_appointment env (process_appointment env m st a).metrics
      ((process_appointment env m st a).store) a).retval = false ∧
    (process_appointment env (process_appointment env m st a).metrics
      ((process_appointment env m st a).store) a).store = st ∧
    (process_appointment env (process_appointment env m st a).metrics
      ((process_appointment env m st a).store) a).metrics.skippedNoInsurance =
      m.skippedNoInsurance + 2 := by
  have key : ∀ m2 : Metrics, process_appointment env m2 st a =
      { retval := false,
        metrics := { m2 with skippedNoInsurance := m2.skippedNoInsurance + 1 },
        store := st, submitted := none, history := none } := by
    intro m2
    simp [process_appointment, h1, h2, h3, h4]
  refine ⟨?_, ?_, ?_, ?_, ?_, ?_, ?_⟩ <;> simp [key]

/-- Witness for C6 at the scenario-B appointment (id only) on an empty store. -/
theorem c6_witness :
    truthy (apptIdOf c6Appt) = true ∧
    has_insurance_info c6Appt = false ∧
    has_emirates_id c6Appt = false ∧
    (process_appointment c6Env zeroMetrics emptyStore c6Appt).retval = false ∧
    (process_appointment c6Env zeroMetrics emptyStore c6Appt).store = emptyStore ∧
    (process_appointment c6Env zeroMetrics emptyStore c6Appt).metrics =
      { zeroMetrics with skippedNoInsurance := 1 } :=
  ⟨by decide, by decide, by decide,
   (c6_no_insurance_frame c6Env zeroMetrics emptyStore c6Appt
     (by decide) (by decide) (by decide) (by decide)).1,
   (c6_no_insurance_frame c6Env zeroMetrics emptyStore c6Appt
     (by decide) (by decide) (by decide) (by decide)).2.2.1,
   (c6_no_insurance_frame c6Env zeroMetrics emptyStore c6Appt
     (by decide) (by decide) (by decide) (by decide)).2.1⟩

/-- Claim C10 (confirmed): when the store operation inside mark_processing
raises, the call returns false exactly like losing the race, so the pipeline
counts the appointment as skipped-already-processed, writes no error record
(the store is untouched), submits nothing and returns false; by contrast
should_process fails open (returns true) on a store read error. -/
theorem c10_mark_processing_fails_closed (env : Env) (m : Metrics) (st : Store)
    (a : Appt)
    (h1 : truthy (apptIdOf a) = true)
    (h2 : should_process_of (st (trackingKey (apptIdOf a))) = true)
    (h3 : has_insurance_info a = true ∨ has_emirates_id a = true)
    (h4 : env.markProcessingRaises = true) :
    (mark_appointment_processing env.markProcessingRaises st (apptIdOf a)).2 = false ∧
    (process_appointment env m st a).retval = false ∧
    (process_appointment env m st a).metrics =
      { m with skippedAlreadyProcessed := m.skippedAlreadyProcessed + 1 } ∧
    (process_appointment env m st a).store = st ∧
    (process_appointment env m st a).submitted = none ∧
    should_process_appointment ReadOutcome.err = true := by
  have hm : (mark_appointment_processing env.markProcessingRaises st (apptIdOf a)).2
      = false := by
    simp [mark_appointment_processing, h4]
  by_cases hI : has_insurance_info a = true
  · refine ⟨hm, ?_, ?_, ?_, ?_, rfl⟩ <;>
      simp [process_appointment, mark_appointment_processing, h1, h2, hI, h4]
  · have hE : has_emirates_id a = true := by
      rcases h3 with h | h
      · exact absurd h hI
      · exact h
    have hI2 : has_insurance_info a = false := by
      cases hx : has_insurance_info a
      · rfl
      · exact absurd hx hI
    refine ⟨hm, ?_, ?_, ?_, ?_, rfl⟩ <;>
      simp [process_appointment, mark_appointment_processing, h1, h2, hI2, hE, h4]

/-- Witness for C10 at an insured appointment with an injected store fault. -/
theorem c10_witness :
    c10Env.markProcessingRaises = true ∧
    has_insurance_info c10Appt = true ∧
    (process_appointment c10Env zeroMetrics emptyStore c10Appt).retval = false ∧
    (process_appointment c10Env zeroMetrics emptyStore c10Appt).store = emptyStore ∧
    (process_appointment c10Env zeroMetrics emptyStore c10Appt).metrics =
      { zeroMetrics with skippedAlreadyProcessed := 1 } :=
  ⟨rfl, by decide,
   (c10_mark_processing_fails_closed c10Env zeroMetrics emptyStore c10Appt
     (by decide) (by decide) (Or.inl (by decide)) rfl).2.1,
   (c10_mark_processing_fails_closed c10Env zeroMetrics emptyStore c10Appt
     (by decide) (by decide) (Or.inl (by decide)) rfl).2.2.2.1,
   (c10_mark_processing_fails_closed c10Env zeroMetrics emptyStore c10Appt
     (by decide) (by decide) (Or.inl (by decide)) rfl).2.2.1⟩

/-- Counterexample to claim C5 as stated: for an appointment with a valid
payer code and no identity field of any kind, the pipeline marks an error and
stops, but it increments the errors counter — the skipped-no-id counter,
although declared and logged by the service, stays at zero. -/
theorem c5_counterexample :
    determine_id_type_and_value c5Appt none = none ∧
    (process_appointment c5Env zeroMetrics emptyStore c5Appt).metrics.skippedNoId = 0 ∧
    (process_appointment c5Env zeroMetrics emptyStore c5Appt).metrics.errors = 1 ∧
    (process_appointment c5Env zeroMetrics emptyStore c5Appt).store
      (trackingKey (Value.int 105)) =
      some (errorRecord "Failed to create Mantys task") := by
  decide

/-- Claim C5 (amended): for every appointment that passes the earlier pipeline
steps but whose identity resolution returns none, the pipeline calls
mark_error (message "Failed to create Mantys task"), increments the errors
counter — not the skipped-no-id counter, which is never incremented — makes no
submission, and stops with a false return. -/
theorem c5_no_id_marks_error (env : Env) (m : Metrics) (st : Store) (a : Appt)
    (c : String)
    (h1 : truthy (apptIdOf a) = true)
    (h2 : st (trackingKey (apptIdOf a)) = none)
    (h3 : has_insurance_info a = true)
    (h4 : env.markProcessingRaises = false)
    (h5 : truthy (aget a "tpa_code_override") = false)
    (h6 : extract_tpa_code_from_appointment a env.nameMap = some c)
    (h7 : is_valid_tpa_code (some c) = true)
    (h8 : determine_id_type_and_value a none = none) :
    (process_appointment env m st a).retval = false ∧
    (process_appointment env m st a).metrics = { m with errors := m.errors + 1 } ∧
    (process_appointment env m st a).metrics.skippedNoId = m.skippedNoId ∧
    (process_appointment env m st a).store (trackingKey (apptIdOf a)) =
      some (errorRecord "Failed to create Mantys task") ∧
    (process_appointment env m st a).submitted = none := by
  have hcb : truthy (Value.str c) = true := by
    rw [truthyStr]
    exact validCodeNeBlank c h7
  refine ⟨?_, ?_, ?_, ?_, ?_⟩ <;>
    simp [process_appointment, mark_appointment_processing, setnx, should_process_of,
      process_appointment_for_eligibility, storeSet,
      h1, h2, h3, h4, h5, h6, h7, h8, hcb, visitTypeAlwaysValid]

/-- Witness for the amended C5 at a payer-coded appointment with no identity
fields, on an empty store. -/
theorem c5_witness :
    extract_tpa_code_from_appointment c5Appt c5Env.nameMap = some "TPA001" ∧
    determine_id_type_and_value c5Appt none = none ∧
    (process_appointment c5Env zeroMetrics emptyStore c5Appt).retval = false ∧
    (process_appointment c5Env zeroMetrics emptyStore c5Appt).metrics =
      { zeroMetrics with errors := 1 } :=
  ⟨by decide, by decide,
   (c5_no_id_marks_error c5Env zeroMetrics emptyStore c5Appt "TPA001"
     (by decide) rfl (by decide) rfl (by decide) (by decide) (by decide)
     (by decide)).1,
   (c5_no_id_marks_error c5Env zeroMetrics emptyStore c5Appt "TPA001"
     (by decide) rfl (by decide) rfl (by decide) (by decide) (by decide)
     (by decide)).2.1⟩

set_option maxRecDepth 4000 in
/-- Claim C7 (confirmed): for a fully classifiable appointment whose truthy
appointment-id (and, when truthy, encounter-id) converts under Python int()
— a truthy non-numeric id instead raises ValueError while the Mantys payload
is built and takes the pipeline's error path — when the downstream submission
succeeds (a truthy task id is returned) but history creation fails, the
failure is non-fatal: the appointment is still marked completed with that task
id, counted as processed and created (errors unchanged), the single submission
payload stands (nothing is rolled back or resubmitted), and the pipeline
returns true. -/
theorem c7_history_failure_nonfatal (env : Env) (m : Metrics) (st : Store)
    (a : Appt) (c t : String) (idInfo : String × String) (n : Int)
    (h1 : truthy (apptIdOf a) = true)
    (h2 : st (trackingKey (apptIdOf a)) = none)
    (h3 : has_insurance_info a = true)
    (h4 : env.markProcessingRaises = false)
    (h5 : truthy (aget a "tpa_code_override") = false)
    (h6 : extract_tpa_code_from_appointment a env.nameMap = some c)
    (h7 : is_valid_tpa_code (some c) = true)
    (h8 : determine_id_type_and_value a none = some idInfo)
    (h9 : env.submitRes = some t)
    (h10 : t ≠ "")
    (h11 : env.historyRes = none)
    (h12 : pyInt (apptIdOf a) = some n)
    (h13 : truthy (encIdOf a) = false ∨ ∃ k, pyInt (encIdOf a) = some k) :
    (process_appointment env m st a).retval = true ∧
    (process_appointment env m st a).metrics =
      { m with processed := m.processed + 1, created := m.created + 1 } ∧
    (process_appointment env m st a).store (trackingKey (apptIdOf a)) =
      some (completedRecord t) ∧
    (process_appointment env m st a).submitted =
      some { idValue := idInfo.2, idType := idInfo.1, tpaName := c,
             visitType := determine_visit_type a } ∧
    (∀ r, create_eligibility_history_item env a t (Value.str c) = some r →
      r.1 = none) := by
  have hcb : truthy (Value.str c) = true := by
    rw [truthyStr]
    exact validCodeNeBlank c h7
  have hbt : (t != "") = true := by
    simp [h10]
  have hc : idConvRaises a = false := by
    unfold idConvRaises
    rcases h13 with h | ⟨k, hk⟩
    · simp [h12, h]
    · simp [h12, hk]
  have hist : ∀ r, create_eligibility_history_item env a t (Value.str c) = some r →
      r.1 = none := by
    intro r hr
    unfold create_eligibility_history_item at hr
    rw [h11] at hr
    by_cases hp : truthy (patientIdStr a) = false
    · rw [if_pos hp] at hr
      injection hr with h14
      rw [← h14]
    · rw [if_neg hp, if_neg (by simp [hc])] at hr
      injection hr with h14
      rw [← h14]
  obtain ⟨r, hr⟩ : ∃ r, create_eligibility_history_item env a t (Value.str c) = some r := by
    unfold create_eligibility_history_item
    rw [h11]
    by_cases hp : truthy (patientIdStr a) = false
    · rw [if_pos hp]
      exact ⟨(none, none), rfl⟩
    · rw [if_neg hp, if_neg (by simp [hc])]
      exact ⟨_, rfl⟩
  refine ⟨?_, ?_, ?_, ?_, hist⟩ <;>
    simp [process_appointment, mark_appointment_processing, setnx, should_process_of,
      process_appointment_for_eligibility, create_mantys_eligibility_check, storeSet,
      h1, h2, h3, h4, h5, h6, h7, h8, h9, hbt, hcb, hc, hr, visitTypeAlwaysValid]

/-- Witness for C7 at the scenario-A-like appointment when the history call
fails and the Mantys call returns task TASK-7. -/
theorem c7_witness :
    extract_tpa_code_from_appointment c7Appt c7Env.nameMap = some "TPA007" ∧
    determine_id_type_and_value c7Appt none = some ("EMIRATESID", "784-1234") ∧
    c7Env.submitRes = some "TASK-7" ∧
    c7Env.historyRes = none ∧
    pyInt (apptIdOf c7Appt) = some 106 ∧
    truthy (encIdOf c7Appt) = false ∧
    (process_appointment c7Env zeroMetrics emptyStore c7Appt).retval = true ∧
    (process_appointment c7Env zeroMetrics emptyStore c7Appt).store
      (trackingKey (Value.int 106)) = some (completedRecord "TASK-7") ∧
    (process_appointment c7Env zeroMetrics emptyStore c7Appt).submitted =
      some { idValue := "784-1234", idType := "EMIRATESID", tpaName := "TPA007",
             visitType := "OUTPATIENT" } :=
  ⟨by decide, by decide, rfl, rfl, by decide, by decide,
   (c7_history_failure_nonfatal c7Env zeroMetrics emptyStore c7Appt "TPA007"
     "TASK-7" ("EMIRATESID", "784-1234") 106 (by decide) rfl (by decide) rfl
     (by decide) (by decide) (by decide) (by decide) rfl (by decide) rfl
     (by decide) (Or.inl (by decide))).1,
   (c7_history_failure_nonfatal c7Env zeroMetrics emptyStore c7Appt "TPA007"
     "TASK-7" ("EMIRATESID", "784-1234") 106 (by decide) rfl (by decide) rfl
     (by decide) (by decide) (by decide) (by decide) rfl (by decide) rfl
     (by decide) (Or.inl (by decide))).2.2.1,
   (c7_history_failure_nonfatal c7Env zeroMetrics emptyStore c7Appt "TPA007"
     "TASK-7" ("EMIRATESID", "784-1234") 106 (by decide) rfl (by decide) rfl
     (by decide) (by decide) (by decide) (by decide) rfl (by decide) rfl
     (by decide) (Or.inl (by decide))).2.2.2.1⟩
